import Mathlib

/-!
Verification of the deployment-platform backend (Express routes over a
relational store).  The definitions below are a shallow embedding of
`server/routes.ts`, `server/storage.ts` and the table schema: rows become
structures, the storage layer becomes pure functions over in-memory lists,
and the asynchronous deployment pipeline `processDeployment` becomes a
function from its environment (analysis-call outcome, first failing
persistence call, clock reads) to the ordered list of storage writes it
performs.  Timestamps are abstract naturals.  Fields of the schema that no
modeled route reads or writes (sourceUrl, description, storageUsed,
updatedAt, profile fields of users, ids of analytics rows) are omitted.
-/

/-- Analysis blob persisted under the deployment's jsonb `groq_analysis`
column; the pipeline always writes an object of shape `\x7b analysis: <text> \x7d`. -/
structure GroqAnalysis where
  analysis : String
deriving DecidableEq

/-- Row of the `users` table (fields the modeled routes use). -/
structure User where
  id : String
  email : Option String
  isPremium : Bool
deriving DecidableEq

/-- Row of the `applications` table (fields the modeled routes use). -/
structure Application where
  id : Nat
  userId : String
  name : String
  subdomain : String
  sourceType : String
  buildCommand : Option String
  outputDir : String
  status : String
  deploymentUrl : Option String
  lastDeployedAt : Option Nat
  createdAt : Nat
deriving DecidableEq

/-- Row of the `deployments` table. -/
structure Deployment where
  id : Nat
  applicationId : Nat
  status : String
  buildLogs : Option String
  groqAnalysis : Option GroqAnalysis
  deployedAt : Option Nat
  createdAt : Nat
deriving DecidableEq

/-- Row of the `analytics` table. -/
structure AnalyticsEvent where
  applicationId : Nat
  visitorIp : String
  userAgent : String
  country : String
  city : String
  referer : String
  path : String
  visitedAt : Nat
deriving DecidableEq

/-- The relational store behind the persistence gateway. -/
structure Store where
  users : List User
  applications : List Application
  deployments : List Deployment
  analytics : List AnalyticsEvent
deriving DecidableEq

/-- JavaScript string-or-default: `v || d` where `v` may be `undefined`
(`none`) or the empty string, both falsy. -/
def jsStringOr (v : Option String) (d : String) : String :=
  match v with
  | some s => if s = "" then d else s
  | none => d

/-- JavaScript `Array.prototype.join` with separator `"\n"`, as the pipeline
persists its `logs` array. -/
def joinLines : List String → String
  | [] => ""
  | [x] => x
  | x :: y :: xs => x ++ "\n" ++ joinLines (y :: xs)

/-- Insert into a list sorted in descending key order, keeping existing
relative order among equal keys. -/
def sortedInsertDesc (key : α → Nat) (x : α) : List α → List α
  | [] => [x]
  | y :: ys => if key y < key x then x :: y :: ys else y :: sortedInsertDesc key x ys

/-- The `orderBy(desc(column))` of the storage queries. -/
def orderByDesc (key : α → Nat) (l : List α) : List α :=
  l.foldr (sortedInsertDesc key) []

/-- storage.getUser: first `users` row with the given id. -/
def getUser (store : Store) (id : String) : Option User :=
  store.users.find? (fun u => u.id == id)

/-- storage.getUserApplications: `applications` rows of the user, newest first. -/
def getUserApplications (store : Store) (userId : String) : List Application :=
  orderByDesc (fun a => a.createdAt) (store.applications.filter (fun a => a.userId == userId))

/-- storage.getApplication: first `applications` row with the given id. -/
def getApplication (store : Store) (id : Nat) : Option Application :=
  store.applications.find? (fun a => a.id == id)

/-- storage.checkSubdomainAvailable: select the first row with the given
subdomain and return `!existing`. -/
def checkSubdomainAvailable (store : Store) (subdomain : String) : Bool :=
  (store.applications.find? (fun a => a.subdomain == subdomain)).isNone

/-- storage.getApplicationDeployments: deployments of the application, newest first. -/
def getApplicationDeployments (store : Store) (applicationId : Nat) : List Deployment :=
  orderByDesc (fun d => d.createdAt) (store.deployments.filter (fun d => d.applicationId == applicationId))

/-- storage.getApplicationAnalytics.  The source computes `daysAgo`
(`days` days before now) but the `where` clause filters on the application
id only; the date comparison is absent (the source reads
`// Add date filter if needed` inside the `and(...)`), so `days` and `now`
are dead inputs and rows of every age are returned, newest first. -/
def getApplicationAnalytics (store : Store) (applicationId : Nat) (days : Nat) (now : Nat) :
    List AnalyticsEvent :=
  orderByDesc (fun e => e.visitedAt) (store.analytics.filter (fun e => e.applicationId == applicationId))

/-- Partial update object passed to storage.updateDeployment; `none` marks a
column absent from the update (drizzle `set` touches only provided keys). -/
structure DeploymentUpdate where
  status : Option String := none
  buildLogs : Option String := none
  groqAnalysis : Option GroqAnalysis := none
  deployedAt : Option Nat := none
deriving DecidableEq

/-- Partial update object passed to storage.updateApplication. -/
structure ApplicationUpdate where
  status : Option String := none
  lastDeployedAt : Option Nat := none
  deploymentUrl : Option String := none
deriving DecidableEq

/-- Effect of storage.updateDeployment on the targeted row: provided columns
are overwritten, absent columns keep their value. -/
def applyDepUpdate (d : Deployment) (u : DeploymentUpdate) : Deployment :=
  { d with
    status := match u.status with | some s => s | none => d.status
    buildLogs := match u.buildLogs with | some b => some b | none => d.buildLogs
    groqAnalysis := match u.groqAnalysis with | some g => some g | none => d.groqAnalysis
    deployedAt := match u.deployedAt with | some t => some t | none => d.deployedAt }

/-- Effect of storage.updateApplication on the targeted row. -/
def applyAppUpdate (a : Application) (u : ApplicationUpdate) : Application :=
  { a with
    status := match u.status with | some s => s | none => a.status
    lastDeployedAt := match u.lastDeployedAt with | some t => some t | none => a.lastDeployedAt
    deploymentUrl := match u.deploymentUrl with | some s => some s | none => a.deploymentUrl }

/-- One persistence write performed by the deployment pipeline. -/
inductive StorageCall where
  | updDep (deploymentId : Nat) (u : DeploymentUpdate)
  | updApp (applicationId : Nat) (u : ApplicationUpdate)
deriving DecidableEq

/-- Replay of a pipeline trace onto the deployment row it targets (updates
apply when the call's id matches the row's id). -/
def applyDepCalls (d : Deployment) (tr : List StorageCall) : Deployment :=
  tr.foldl
    (fun d c =>
      match c with
      | StorageCall.updDep i u => if i = d.id then applyDepUpdate d u else d
      | StorageCall.updApp _ _ => d)
    d

/-- Replay of a pipeline trace onto the application row it targets. -/
def applyAppCalls (a : Application) (tr : List StorageCall) : Application :=
  tr.foldl
    (fun a c =>
      match c with
      | StorageCall.updApp i u => if i = a.id then applyAppUpdate a u else a
      | StorageCall.updDep _ _ => a)
    a

/-- Deployment row as storage.createDeployment inserts it at deploy time:
status `building`, every other mutable column at its column default. -/
def initialDeployment (deploymentId applicationId t0 : Nat) : Deployment :=
  { id := deploymentId, applicationId := applicationId, status := "building",
    buildLogs := none, groqAnalysis := none, deployedAt := none, createdAt := t0 }

/-- Outcome of the single Groq chat-completion HTTP call.  `ok content`
is a 2xx response whose body parses and whose `choices` array is readable;
`content` is `choices[0]?.message?.content` (`none` when the chain yields
undefined).  `badBody` is a 2xx response whose body fails to parse or has no
`choices` array (reading it throws).  `httpFail` is a non-2xx response and
`netFail` a rejected fetch. -/
inductive GroqOutcome where
  | ok (content : Option String)
  | badBody
  | httpFail (code : Nat)
  | netFail
deriving DecidableEq

/-- Analysis text the pipeline's stage 2 leaves in its `analysisResult`
variable: the returned content (defaulted when falsy) on success, and the
initial empty string on every failure path. -/
def groqResultText : GroqOutcome → String
  | GroqOutcome.ok c => jsStringOr c "Analysis completed"
  | _ => ""

/-- Log line appended by the pipeline's stage 2. -/
def groqLogLine : GroqOutcome → String
  | GroqOutcome.ok _ => "GroqAI analysis completed successfully"
  | _ => "GroqAI analysis skipped - using default configuration"

/-- The five timed stage lines and the completion line pushed after stage 2. -/
def pipelineTailLines : List String :=
  ["Optimizing dependencies...", "Building application...", "Running tests...",
   "Deploying to CDN...", "Configuring subdomain...", "Deployment complete!"]

/-- Which awaited persistence call inside processDeployment's try block is
the first to throw, if any, together with the thrown error's message.  The
four candidates, in program order: the initial-logs updateDeployment, the
post-analysis updateDeployment, the success updateDeployment and the final
updateApplication.  (The Groq fetch never escapes its inner try/catch.) -/
inductive PipelineFault where
  | noFault
  | atInitialUpdate (msg : String)
  | atAnalysisUpdate (msg : String)
  | atSuccessUpdate (msg : String)
  | atApplicationUpdate (msg : String)
deriving DecidableEq

/-- The catch block of processDeployment: append the failure line to the
logs accumulated so far, mark the deployment failed with the full log text,
and mark the application failed. -/
def catchCalls (deploymentId applicationId : Nat) (logs : List String) (msg : String) :
    List StorageCall :=
  [StorageCall.updDep deploymentId
     { status := some "failed",
       buildLogs := some (joinLines (logs ++ ["Deployment failed: " ++ msg])) },
   StorageCall.updApp applicationId { status := some "failed" }]

/-- processDeployment (routes.ts): the ordered persistence writes of one
pipeline run, as a function of the Groq call outcome `g`, the first failing
persistence call `fault`, and the two `new Date()` reads `t1` (deployment
success time) and `t2` (application lastDeployedAt).  Writes that precede
the failing call are persisted; the failing call itself is not; the catch
block then runs.  The Groq HTTP call happens between the first and second
write and its prompt text is not persisted anywhere. -/
def processDeployment (deploymentId : Nat) (app : Application) (g : GroqOutcome)
    (fault : PipelineFault) (t1 t2 : Nat) : List StorageCall :=
  let logs1 := ["Initializing deployment..."]
  let c0 := StorageCall.updDep deploymentId { buildLogs := some (joinLines logs1) }
  let logs2 := logs1 ++ ["Analyzing code with GroqAI...", groqLogLine g]
  let c1 := StorageCall.updDep deploymentId
    { buildLogs := some (joinLines logs2),
      groqAnalysis := some { analysis := groqResultText g } }
  let logs3 := logs2 ++ pipelineTailLines
  let c2 := StorageCall.updDep deploymentId
    { status := some "success", deployedAt := some t1, buildLogs := some (joinLines logs3) }
  let c3 := StorageCall.updApp app.id
    { status := some "live", lastDeployedAt := some t2,
      deploymentUrl := some ("https://" ++ app.subdomain ++ ".seskrow.com") }
  match fault with
  | PipelineFault.noFault => [c0, c1, c2, c3]
  | PipelineFault.atInitialUpdate m => catchCalls deploymentId app.id logs1 m
  | PipelineFault.atAnalysisUpdate m => c0 :: catchCalls deploymentId app.id logs2 m
  | PipelineFault.atSuccessUpdate m => c0 :: c1 :: catchCalls deploymentId app.id logs3 m
  | PipelineFault.atApplicationUpdate m => c0 :: c1 :: c2 :: catchCalls deploymentId app.id logs3 m

/-- The buildLogs texts persisted by the deployment updates of a trace, in
order. -/
def persistedDepLogs (tr : List StorageCall) : List String :=
  tr.filterMap
    (fun c =>
      match c with
      | StorageCall.updDep _ u => u.buildLogs
      | StorageCall.updApp _ _ => none)

/-- One persisted log text extends another purely by appending lines:
either they are equal or the later text is the earlier text, a newline, and
more text. -/
def logExtends (a b : String) : Prop :=
  a = b ∨ ∃ r, b = a ++ "\n" ++ r

/-- A log text ends with the given line: the line occupies the end of the
text and starts right after a newline. -/
def endsWithLine (s line : String) : Prop :=
  ∃ pre, s = pre ++ "\n" ++ line

/-- Minimal HTTP response view: status code and optional error message body. -/
structure HttpResponse where
  status : Nat
  body : Option String := none
deriving DecidableEq

/-- GET /api/applications/:id — load the application, 404 when absent, 403
when the authenticated principal is not its owner, else 200 with the row. -/
def getApplicationRoute (store : Store) (applicationId : Nat) (principal : String) :
    HttpResponse × Option Application :=
  match getApplication store applicationId with
  | none => ({ status := 404, body := some "Application not found" }, none)
  | some app =>
    if app.userId ≠ principal then ({ status := 403, body := some "Access denied" }, none)
    else ({ status := 200 }, some app)

/-- DELETE /api/applications/:id — same existence-then-ownership guard, then
storage.deleteApplication and a 204. -/
def deleteApplicationRoute (store : Store) (applicationId : Nat) (principal : String) :
    HttpResponse × Store :=
  match getApplication store applicationId with
  | none => ({ status := 404, body := some "Application not found" }, store)
  | some app =>
    if app.userId ≠ principal then ({ status := 403, body := some "Access denied" }, store)
    else ({ status := 204 },
          { store with applications := store.applications.filter (fun a => !(a.id == applicationId)) })

/-- GET /api/applications/:id/deployments — guard, then the deployment list. -/
def getDeploymentsRoute (store : Store) (applicationId : Nat) (principal : String) :
    HttpResponse × Option (List Deployment) :=
  match getApplication store applicationId with
  | none => ({ status := 404, body := some "Application not found" }, none)
  | some app =>
    if app.userId ≠ principal then ({ status := 403, body := some "Access denied" }, none)
    else ({ status := 200 }, some (getApplicationDeployments store applicationId))

/-- POST /api/applications/:id/deploy — guard, then storage.createDeployment
with status `building`, launch processDeployment detached from the request
(the 201 response returns before the pipeline runs), and answer 201 with the
fresh row. -/
def deployRoute (store : Store) (applicationId : Nat) (principal : String)
    (newDeploymentId t0 : Nat) : HttpResponse × Store :=
  match getApplication store applicationId with
  | none => ({ status := 404, body := some "Application not found" }, store)
  | some app =>
    if app.userId ≠ principal then ({ status := 403, body := some "Access denied" }, store)
    else ({ status := 201 },
          { store with deployments :=
              store.deployments ++ [initialDeployment newDeploymentId applicationId t0] })

/-- GET /api/applications/:id/analytics — guard, then
`parseInt(req.query.days) || 30` (absent, unparseable or zero fall back to
30) and the storage query. -/
def getAnalyticsRoute (store : Store) (applicationId : Nat) (principal : String)
    (daysParam : Option Nat) (now : Nat) : HttpResponse × Option (List AnalyticsEvent) :=
  match getApplication store applicationId with
  | none => ({ status := 404, body := some "Application not found" }, none)
  | some app =>
    if app.userId ≠ principal then ({ status := 403, body := some "Access denied" }, none)
    else
      let days := match daysParam with
        | some d => if d = 0 then 30 else d
        | none => 30
      ({ status := 200 }, some (getApplicationAnalytics store applicationId days now))

/-- JS truthiness of `user?.isPremium`: a missing user (or missing flag) is
not premium. -/
def premiumOf (u : Option User) : Bool :=
  match u with
  | some u => u.isPremium
  | none => false

/-- Client-supplied body of POST /api/applications after zod validation of a
well-typed payload (insertApplicationSchema; the generated schema passes any
payload carrying the required columns with the right types). -/
structure ApplicationForm where
  name : String
  subdomain : String
  sourceType : String
  buildCommand : Option String
  outputDir : String
deriving DecidableEq

/-- Outcome of POST /api/applications. -/
inductive CreateResult where
  | quotaRefused
  | subdomainTaken
  | created (app : Application)
deriving DecidableEq

/-- HTTP rendering of a CreateResult, with the messages of the source. -/
def createResultResponse : CreateResult → HttpResponse
  | CreateResult.quotaRefused =>
      { status := 403,
        body := some "Free tier limited to 1 application. Upgrade to premium for unlimited apps." }
  | CreateResult.subdomainTaken => { status := 400, body := some "Subdomain already taken" }
  | CreateResult.created _ => { status := 201 }

/-- POST /api/applications — refuse a non-premium user who already owns an
application, then check subdomain availability with the pre-check query, then
insert the row (status column default `pending`). -/
def postApplicationsRoute (store : Store) (userId : String) (form : ApplicationForm)
    (newId now : Nat) : CreateResult × Store :=
  let user := getUser store userId
  let userApps := getUserApplications store userId
  if premiumOf user = false ∧ 1 ≤ userApps.length then
    (CreateResult.quotaRefused, store)
  else if checkSubdomainAvailable store form.subdomain = false then
    (CreateResult.subdomainTaken, store)
  else
    let app : Application :=
      { id := newId, userId := userId, name := form.name, subdomain := form.subdomain,
        sourceType := form.sourceType, buildCommand := form.buildCommand,
        outputDir := form.outputDir, status := "pending", deploymentUrl := none,
        lastDeployedAt := none, createdAt := now }
    (CreateResult.created app, { store with applications := store.applications ++ [app] })

/-- POST /api/track/:subdomain — the source looks the subdomain up inside
`storage.getUserApplications("")`, i.e. among applications whose owner id is
the empty string (its own comment: a hack needing a better method), answers
404 when that search misses, and otherwise records one analytics event for
the found application with JS-falsy defaults for path and referer. -/
def trackRoute (store : Store) (subdomain : String) (ip : String) (userAgent : Option String)
    (path referer : Option String) (now : Nat) : HttpResponse × Store :=
  let apps := getUserApplications store ""
  match apps.find? (fun a => a.subdomain == subdomain) with
  | none => ({ status := 404, body := some "Application not found" }, store)
  | some app =>
    let ev : AnalyticsEvent :=
      { applicationId := app.id, visitorIp := ip,
        userAgent := match userAgent with | some ua => ua | none => "",
        path := jsStringOr path "/", referer := jsStringOr referer "",
        country := "Unknown", city := "Unknown", visitedAt := now }
    ({ status := 200 }, { store with analytics := store.analytics ++ [ev] })

/-- Outcome of the Groq chat-completion call made by the chat endpoints,
with the same reading as `GroqOutcome`. -/
inductive ChatUpstream where
  | ok (content : Option String)
  | badBody
  | httpFail (code : Nat)
  | netFail
deriving DecidableEq

/-- Fallback answer of the authenticated chat's catch block. -/
def authChatFallback : String :=
  "I apologize, but I\x27m having trouble connecting to the AI service right now. Please try again in a moment, or contact support if the issue persists."

/-- Response text the authenticated chat resolves: the returned content when
the call succeeds (defaulted when falsy), the apology fallback when the call
throws, answers non-2xx, or its body is unreadable. -/
def authChatResponse : ChatUpstream → String
  | ChatUpstream.ok c => jsStringOr c "Sorry, I could not generate a response."
  | _ => authChatFallback

/-- Response text the public chat resolves; the non-2xx branch and the
catch block use different fallback strings. -/
def publicChatResponse : ChatUpstream → String
  | ChatUpstream.ok c => jsStringOr c "I apologize, but I cannot provide a response at the moment."
  | ChatUpstream.httpFail _ =>
      "I\x27m having trouble connecting right now. Please try again or contact our support team for assistance."
  | _ => "I\x27m currently unavailable. Please try again later or contact our support team for help."

/-- Observable actions of a chat request, in the order they happen. -/
inductive ChatEvent where
  | upstreamCall
  | persistConversation (userId message response : String)
  | respond (status : Nat) (payload : String)
deriving DecidableEq

/-- POST /api/groq/chat — after schema validation of a well-typed body (the
client supplies `message` plus a placeholder `response` column, both required
by insertGroqConversationSchema), call Groq, resolve the response text, then
persist the conversation row with that text and answer 201 with it. -/
def groqChatRoute (userId message : String) (up : ChatUpstream) : List ChatEvent :=
  let response := authChatResponse up
  [ChatEvent.upstreamCall,
   ChatEvent.persistConversation userId message response,
   ChatEvent.respond 201 response]

/-- POST /api/groq/public-chat — reject a missing or falsy `message` field
with a 400 before any upstream call; otherwise call Groq, resolve the
response text and answer 200 with it, persisting nothing. -/
def publicChatRoute (message : Option String) (up : ChatUpstream) : List ChatEvent :=
  match message with
  | none => [ChatEvent.respond 400 "Message is required"]
  | some m =>
    if m = "" then [ChatEvent.respond 400 "Message is required"]
    else [ChatEvent.upstreamCall, ChatEvent.respond 200 (publicChatResponse up)]

theorem joinLines_cons_cons (x y : String) (ys : List String) :
    joinLines (x :: y :: ys) = x ++ "\n" ++ joinLines (y :: ys) := rfl

theorem joinLines_append (l1 l2 : List String) (h1 : l1 ≠ []) (h2 : l2 ≠ []) :
    joinLines (l1 ++ l2) = joinLines l1 ++ "\n" ++ joinLines l2 := by
  induction l1 with
  | nil => exact absurd rfl h1
  | cons x xs ih =>
    cases xs with
    | nil =>
      cases l2 with
      | nil => exact absurd rfl h2
      | cons y ys => rfl
    | cons y ys =>
      have hxs : y :: ys ≠ [] := by simp
      calc joinLines ((x :: y :: ys) ++ l2)
          = x ++ "\n" ++ joinLines ((y :: ys) ++ l2) := rfl
        _ = x ++ "\n" ++ (joinLines (y :: ys) ++ "\n" ++ joinLines l2) := by rw [ih hxs]
        _ = joinLines (x :: y :: ys) ++ "\n" ++ joinLines l2 := by
            rw [joinLines_cons_cons]
            simp [String.append_assoc]

theorem logExtends_append (l1 l2 : List String) (h1 : l1 ≠ []) :
    logExtends (joinLines l1) (joinLines (l1 ++ l2)) := by
  cases l2 with
  | nil => left; simp
  | cons y ys =>
    right
    exact ⟨joinLines (y :: ys), joinLines_append l1 (y :: ys) h1 (by simp)⟩

theorem endsWithLine_concat (l : List String) (x : String) (h : l ≠ []) :
    endsWithLine (joinLines (l ++ [x])) x :=
  ⟨joinLines l, by rw [joinLines_append l [x] h (by simp)]; rfl⟩

/-- C1: every pipeline run, whatever the analysis outcome and whichever
persistence call throws first, leaves the deployment in terminal status
`success` or `failed`; the persisted buildLogs texts grow only by appending
lines; and the final text ends with the completion line on success, or with
a line of the form "Deployment failed: <message>" on failure. -/
theorem deployment_terminal_invariant (deploymentId : Nat) (app : Application) (g : GroqOutcome)
    (fault : PipelineFault) (t0 t1 t2 : Nat) :
    ((applyDepCalls (initialDeployment deploymentId app.id t0)
        (processDeployment deploymentId app g fault t1 t2)).status = "success" ∨
     (applyDepCalls (initialDeployment deploymentId app.id t0)
        (processDeployment deploymentId app g fault t1 t2)).status = "failed") ∧
    List.Chain' logExtends (persistedDepLogs (processDeployment deploymentId app g fault t1 t2)) ∧
    ((applyDepCalls (initialDeployment deploymentId app.id t0)
        (processDeployment deploymentId app g fault t1 t2)).status = "success" →
      ∃ s, (applyDepCalls (initialDeployment deploymentId app.id t0)
              (processDeployment deploymentId app g fault t1 t2)).buildLogs = some s ∧
        endsWithLine s "Deployment complete!") ∧
    ((applyDepCalls (initialDeployment deploymentId app.id t0)
        (processDeployment deploymentId app g fault t1 t2)).status = "failed" →
      ∃ s m, (applyDepCalls (initialDeployment deploymentId app.id t0)
                (processDeployment deploymentId app g fault t1 t2)).buildLogs = some s ∧
        endsWithLine s ("Deployment failed: " ++ m)) := by
  cases fault with
  | noFault =>
    simp only [processDeployment, catchCalls, applyDepCalls, initialDeployment, applyDepUpdate,
      persistedDepLogs, pipelineTailLines, List.foldl_cons, List.foldl_nil, List.filterMap_cons,
      List.filterMap_nil, List.cons_append, List.nil_append, if_pos, List.chain'_cons,
      List.chain'_singleton, List.chain'_nil, and_true, true_and]
    exact ⟨Or.inl trivial,
      ⟨logExtends_append ["Initializing deployment..."] _ (by simp),
       logExtends_append ["Initializing deployment...", "Analyzing code with GroqAI...",
         groqLogLine g] _ (by simp)⟩,
      fun _ => ⟨_, rfl, endsWithLine_concat ["Initializing deployment...",
        "Analyzing code with GroqAI...", groqLogLine g, "Optimizing dependencies...",
        "Building application...", "Running tests...", "Deploying to CDN...",
        "Configuring subdomain..."] "Deployment complete!" (by simp)⟩,
      fun h => absurd h (by decide)⟩
  | atInitialUpdate msg =>
    simp only [processDeployment, catchCalls, applyDepCalls, initialDeployment, applyDepUpdate,
      persistedDepLogs, pipelineTailLines, List.foldl_cons, List.foldl_nil, List.filterMap_cons,
      List.filterMap_nil, List.cons_append, List.nil_append, if_pos, List.chain'_cons,
      List.chain'_singleton, List.chain'_nil, and_true, true_and]
    exact ⟨Or.inr trivial, fun h => absurd h (by decide),
      fun _ => ⟨_, msg, rfl,
        endsWithLine_concat ["Initializing deployment..."] _ (by simp)⟩⟩
  | atAnalysisUpdate msg =>
    simp only [processDeployment, catchCalls, applyDepCalls, initialDeployment, applyDepUpdate,
      persistedDepLogs, pipelineTailLines, List.foldl_cons, List.foldl_nil, List.filterMap_cons,
      List.filterMap_nil, List.cons_append, List.nil_append, if_pos, List.chain'_cons,
      List.chain'_singleton, List.chain'_nil, and_true, true_and]
    exact ⟨Or.inr trivial,
      logExtends_append ["Initializing deployment..."] _ (by simp),
      fun h => absurd h (by decide),
      fun _ => ⟨_, msg, rfl,
        endsWithLine_concat ["Initializing deployment...", "Analyzing code with GroqAI...",
          groqLogLine g] _ (by simp)⟩⟩
  | atSuccessUpdate msg =>
    simp only [processDeployment, catchCalls, applyDepCalls, initialDeployment, applyDepUpdate,
      persistedDepLogs, pipelineTailLines, List.foldl_cons, List.foldl_nil, List.filterMap_cons,
      List.filterMap_nil, List.cons_append, List.nil_append, if_pos, List.chain'_cons,
      List.chain'_singleton, List.chain'_nil, and_true, true_and]
    exact ⟨Or.inr trivial,
      ⟨logExtends_append ["Initializing deployment..."] _ (by simp),
       logExtends_append ["Initializing deployment...", "Analyzing code with GroqAI...",
         groqLogLine g] _ (by simp)⟩,
      fun h => absurd h (by decide),
      fun _ => ⟨_, msg, rfl,
        endsWithLine_concat ["Initializing deployment...", "Analyzing code with GroqAI...",
          groqLogLine g, "Optimizing dependencies...", "Building application...",
          "Running tests...", "Deploying to CDN...", "Configuring subdomain...",
          "Deployment complete!"] _ (by simp)⟩⟩
  | atApplicationUpdate msg =>
    simp only [processDeployment, catchCalls, applyDepCalls, initialDeployment, applyDepUpdate,
      persistedDepLogs, pipelineTailLines, List.foldl_cons, List.foldl_nil, List.filterMap_cons,
      List.filterMap_nil, List.cons_append, List.nil_append, if_pos, List.chain'_cons,
      List.chain'_singleton, List.chain'_nil, and_true, true_and]
    exact ⟨Or.inr trivial,
      ⟨logExtends_append ["Initializing deployment..."] _ (by simp),
       logExtends_append ["Initializing deployment...", "Analyzing code with GroqAI...",
         groqLogLine g] _ (by simp),
       logExtends_append ["Initializing deployment...", "Analyzing code with GroqAI...",
         groqLogLine g, "Optimizing dependencies...", "Building application...",
         "Running tests...", "Deploying to CDN...", "Configuring subdomain...",
         "Deployment complete!"] _ (by simp)⟩,
      fun h => absurd h (by decide),
      fun _ => ⟨_, msg, rfl,
        endsWithLine_concat ["Initializing deployment...", "Analyzing code with GroqAI...",
          groqLogLine g, "Optimizing dependencies...", "Building application...",
          "Running tests...", "Deploying to CDN...", "Configuring subdomain...",
          "Deployment complete!"] _ (by simp)⟩⟩

/-- Concrete application row used by the concrete-instance theorems. -/
def sampleApp : Application :=
  { id := 1, userId := "alice", name := "Demo", subdomain := "demo-1", sourceType := "zip",
    buildCommand := none, outputDir := "dist", status := "pending", deploymentUrl := none,
    lastDeployedAt := none, createdAt := 0 }

theorem deployment_terminal_invariant_witness :
    (∃ s, (applyDepCalls (initialDeployment 1 1 0)
        (processDeployment 1 sampleApp GroqOutcome.netFail PipelineFault.noFault 5 6)).buildLogs =
          some s ∧ endsWithLine s "Deployment complete!") ∧
    (∃ s m, (applyDepCalls (initialDeployment 1 1 0)
        (processDeployment 1 sampleApp GroqOutcome.netFail
          (PipelineFault.atInitialUpdate "db down") 5 6)).buildLogs =
          some s ∧ endsWithLine s ("Deployment failed: " ++ m)) :=
  ⟨(deployment_terminal_invariant 1 sampleApp GroqOutcome.netFail PipelineFault.noFault 5 6 0
      ).2.2.1 rfl,
   (deployment_terminal_invariant 1 sampleApp GroqOutcome.netFail
      (PipelineFault.atInitialUpdate "db down") 5 6 0).2.2.2 rfl⟩

/-- C2: a fault-free pipeline run performs, in order, the two partial log
writes, the deployment success write (status `success`, deployedAt at the
first clock read, full log) and then the application write (status `live`,
lastDeployedAt at the second clock read, deploymentUrl derived from the
subdomain under the fixed seskrow.com suffix); replaying the trace yields
exactly those terminal row values. -/
theorem success_path_updates (deploymentId : Nat) (app : Application) (g : GroqOutcome)
    (t0 t1 t2 : Nat) :
    processDeployment deploymentId app g PipelineFault.noFault t1 t2 =
      [StorageCall.updDep deploymentId { buildLogs := some "Initializing deployment..." },
       StorageCall.updDep deploymentId
         { buildLogs := some (joinLines ["Initializing deployment...",
             "Analyzing code with GroqAI...", groqLogLine g]),
           groqAnalysis := some { analysis := groqResultText g } },
       StorageCall.updDep deploymentId
         { status := some "success", deployedAt := some t1,
           buildLogs := some (joinLines ["Initializing deployment...",
             "Analyzing code with GroqAI...", groqLogLine g, "Optimizing dependencies...",
             "Building application...", "Running tests...", "Deploying to CDN...",
             "Configuring subdomain...", "Deployment complete!"]) },
       StorageCall.updApp app.id
         { status := some "live", lastDeployedAt := some t2,
           deploymentUrl := some ("https://" ++ app.subdomain ++ ".seskrow.com") }] ∧
    (applyDepCalls (initialDeployment deploymentId app.id t0)
       (processDeployment deploymentId app g PipelineFault.noFault t1 t2)).status = "success" ∧
    (applyDepCalls (initialDeployment deploymentId app.id t0)
       (processDeployment deploymentId app g PipelineFault.noFault t1 t2)).deployedAt = some t1 ∧
    (applyAppCalls app (processDeployment deploymentId app g PipelineFault.noFault t1 t2)).status
      = "live" ∧
    (applyAppCalls app
       (processDeployment deploymentId app g PipelineFault.noFault t1 t2)).lastDeployedAt
      = some t2 ∧
    (applyAppCalls app
       (processDeployment deploymentId app g PipelineFault.noFault t1 t2)).deploymentUrl
      = some ("https://" ++ app.subdomain ++ ".seskrow.com") := by
  refine ⟨rfl, ?_, ?_, ?_, ?_, ?_⟩ <;>
    simp [processDeployment, applyDepCalls, applyAppCalls, initialDeployment, applyDepUpdate,
      applyAppUpdate]

/-- Truth of "the Groq analysis call failed" (network error, non-2xx
response, or unreadable body). -/
def groqCallFailed : GroqOutcome → Bool
  | GroqOutcome.ok _ => false
  | _ => true

/-- C3 (amended): when the analysis call fails, the pipeline appends the
skip line, persists the deployment's analysis blob as an empty analysis
object (rather than leaving the column unset), does not abort, and a run
whose later stages all succeed still terminates with status `success`. -/
theorem analysis_failure_nonfatal (deploymentId : Nat) (app : Application) (g : GroqOutcome)
    (t0 t1 t2 : Nat) (hg : groqCallFailed g = true) :
    groqLogLine g = "GroqAI analysis skipped - using default configuration" ∧
    (processDeployment deploymentId app g PipelineFault.noFault t1 t2).get? 1 =
      some (StorageCall.updDep deploymentId
        { buildLogs := some (joinLines ["Initializing deployment...",
            "Analyzing code with GroqAI...",
            "GroqAI analysis skipped - using default configuration"]),
          groqAnalysis := some { analysis := "" } }) ∧
    (applyDepCalls (initialDeployment deploymentId app.id t0)
       (processDeployment deploymentId app g PipelineFault.noFault t1 t2)).status = "success" := by
  cases g with
  | ok c => simp [groqCallFailed] at hg
  | badBody =>
    refine ⟨rfl, rfl, ?_⟩
    simp [processDeployment, applyDepCalls, initialDeployment, applyDepUpdate]
  | httpFail code =>
    refine ⟨rfl, rfl, ?_⟩
    simp [processDeployment, applyDepCalls, initialDeployment, applyDepUpdate]
  | netFail =>
    refine ⟨rfl, rfl, ?_⟩
    simp [processDeployment, applyDepCalls, initialDeployment, applyDepUpdate]

theorem analysis_failure_nonfatal_witness :
    groqCallFailed GroqOutcome.netFail = true ∧
    (applyDepCalls (initialDeployment 1 1 0)
       (processDeployment 1 sampleApp GroqOutcome.netFail PipelineFault.noFault 5 6)).status
      = "success" :=
  ⟨by decide,
   (analysis_failure_nonfatal 1 sampleApp GroqOutcome.netFail 0 5 6 (by decide)).2.2⟩

/-- C3 counterexample to the claim as stated: after a failed analysis call
(here a 500 response) the deployment's analysis column is not left unset;
the stage-2 write stores an empty analysis object. -/
theorem analysis_failure_sets_empty_blob :
    (applyDepCalls (initialDeployment 1 1 0)
       (processDeployment 1 sampleApp (GroqOutcome.httpFail 500) PipelineFault.noFault 5 6)).groqAnalysis
      = some { analysis := "" } ∧
    some (GroqAnalysis.mk "") ≠ (none : Option GroqAnalysis) :=
  ⟨rfl, by decide⟩

/-- C10 (amended): every deployment update of any trace that marks the row
`failed` writes no deployedAt and no analysis blob (only status and
buildLogs accompany it), deployedAt is written only by the status-`success`
update, and a run that fails before the success update leaves deployedAt
unset.  (A run that fails at the application update keeps the deployedAt
already persisted by the success update, despite terminal status `failed`.) -/
theorem failure_path_frame (deploymentId : Nat) (app : Application) (g : GroqOutcome)
    (fault : PipelineFault) (t0 t1 t2 : Nat) :
    (∀ u, StorageCall.updDep deploymentId u ∈ processDeployment deploymentId app g fault t1 t2 →
        u.status = some "failed" → u.deployedAt = none ∧ u.groqAnalysis = none) ∧
    (∀ u, StorageCall.updDep deploymentId u ∈ processDeployment deploymentId app g fault t1 t2 →
        u.deployedAt ≠ none → u.status = some "success") ∧
    (∀ m, (fault = PipelineFault.atInitialUpdate m ∨ fault = PipelineFault.atAnalysisUpdate m ∨
           fault = PipelineFault.atSuccessUpdate m) →
        (applyDepCalls (initialDeployment deploymentId app.id t0)
           (processDeployment deploymentId app g fault t1 t2)).deployedAt = none) := by
  cases fault with
  | noFault =>
    refine ⟨fun u hu hs => ?_, fun u hu hd => ?_, fun m hm => ?_⟩
    · simp only [processDeployment, List.mem_cons, List.not_mem_nil, or_false,
        StorageCall.updDep.injEq, true_and] at hu
      rcases hu with ⟨-, rfl⟩ | ⟨-, rfl⟩ | ⟨-, rfl⟩ | h
      · simp_all
      · simp_all
      · simp_all
      · simp at h
    · simp only [processDeployment, List.mem_cons, List.not_mem_nil, or_false,
        StorageCall.updDep.injEq, true_and] at hu
      rcases hu with ⟨-, rfl⟩ | ⟨-, rfl⟩ | ⟨-, rfl⟩ | h
      · simp_all
      · simp_all
      · simp_all
      · simp at h
    · simp at hm
  | atInitialUpdate msg =>
    refine ⟨fun u hu hs => ?_, fun u hu hd => ?_, fun m hm => ?_⟩
    · simp only [processDeployment, catchCalls, List.mem_cons, List.not_mem_nil, or_false,
        StorageCall.updDep.injEq, true_and] at hu
      rcases hu with ⟨-, rfl⟩ | h
      · simp_all
      · simp at h
    · simp only [processDeployment, catchCalls, List.mem_cons, List.not_mem_nil, or_false,
        StorageCall.updDep.injEq, true_and] at hu
      rcases hu with ⟨-, rfl⟩ | h
      · simp_all
      · simp at h
    · simp [processDeployment, catchCalls, applyDepCalls, initialDeployment, applyDepUpdate]
  | atAnalysisUpdate msg =>
    refine ⟨fun u hu hs => ?_, fun u hu hd => ?_, fun m hm => ?_⟩
    · simp only [processDeployment, catchCalls, List.mem_cons, List.not_mem_nil, or_false,
        StorageCall.updDep.injEq, true_and] at hu
      rcases hu with ⟨-, rfl⟩ | ⟨-, rfl⟩ | h
      · simp_all
      · simp_all
      · simp at h
    · simp only [processDeployment, catchCalls, List.mem_cons, List.not_mem_nil, or_false,
        StorageCall.updDep.injEq, true_and] at hu
      rcases hu with ⟨-, rfl⟩ | ⟨-, rfl⟩ | h
      · simp_all
      · simp_all
      · simp at h
    · simp [processDeployment, catchCalls, applyDepCalls, initialDeployment, applyDepUpdate]
  | atSuccessUpdate msg =>
    refine ⟨fun u hu hs => ?_, fun u hu hd => ?_, fun m hm => ?_⟩
    · simp only [processDeployment, catchCalls, List.mem_cons, List.not_mem_nil, or_false,
        StorageCall.updDep.injEq, true_and] at hu
      rcases hu with ⟨-, rfl⟩ | ⟨-, rfl⟩ | ⟨-, rfl⟩ | h
      · simp_all
      · simp_all
      · simp_all
      · simp at h
    · simp only [processDeployment, catchCalls, List.mem_cons, List.not_mem_nil, or_false,
        StorageCall.updDep.injEq, true_and] at hu
      rcases hu with ⟨-, rfl⟩ | ⟨-, rfl⟩ | ⟨-, rfl⟩ | h
      · simp_all
      · simp_all
      · simp_all
      · simp at h
    · simp [processDeployment, catchCalls, applyDepCalls, initialDeployment, applyDepUpdate]
  | atApplicationUpdate msg =>
    refine ⟨fun u hu hs => ?_, fun u hu hd => ?_, fun m hm => ?_⟩
    · simp only [processDeployment, catchCalls, List.mem_cons, List.not_mem_nil, or_false,
        StorageCall.updDep.injEq, true_and] at hu
      rcases hu with ⟨-, rfl⟩ | ⟨-, rfl⟩ | ⟨-, rfl⟩ | ⟨-, rfl⟩ | h
      · simp_all
      · simp_all
      · simp_all
      · simp_all
      · simp at h
    · simp only [processDeployment, catchCalls, List.mem_cons, List.not_mem_nil, or_false,
        StorageCall.updDep.injEq, true_and] at hu
      rcases hu with ⟨-, rfl⟩ | ⟨-, rfl⟩ | ⟨-, rfl⟩ | ⟨-, rfl⟩ | h
      · simp_all
      · simp_all
      · simp_all
      · simp_all
      · simp at h
    · simp at hm

theorem failure_path_frame_witness :
    (applyDepCalls (initialDeployment 1 1 0)
       (processDeployment 1 sampleApp GroqOutcome.netFail
         (PipelineFault.atAnalysisUpdate "db down") 5 6)).deployedAt = none :=
  (failure_path_frame 1 sampleApp GroqOutcome.netFail
    (PipelineFault.atAnalysisUpdate "db down") 0 5 6).2.2 "db down" (Or.inr (Or.inl rfl))

/-- C10 counterexample to the claim as stated: when the final application
update throws, the catch block marks the deployment `failed`, but the
deployedAt written moments earlier by the success update survives — a
deployment with terminal status `failed` and deployedAt set. -/
theorem failed_with_deployedAt_counterexample :
    (applyDepCalls (initialDeployment 1 1 0)
       (processDeployment 1 sampleApp GroqOutcome.netFail
         (PipelineFault.atApplicationUpdate "boom") 5 6)).status = "failed" ∧
    (applyDepCalls (initialDeployment 1 1 0)
       (processDeployment 1 sampleApp GroqOutcome.netFail
         (PipelineFault.atApplicationUpdate "boom") 5 6)).deployedAt = some 5 :=
  ⟨rfl, rfl⟩

/-- C4: every application-scoped route answers 404 when the application id
resolves to no row — regardless of the principal, so NotFound takes
precedence — and 403 when the row exists but its owner is not the
authenticated principal. -/
theorem ownership_guard_order (store : Store) (applicationId : Nat) (principal : String)
    (newDeploymentId t0 : Nat) (daysParam : Option Nat) (now : Nat) :
    (getApplication store applicationId = none →
       (deployRoute store applicationId principal newDeploymentId t0).1.status = 404 ∧
       (deleteApplicationRoute store applicationId principal).1.status = 404 ∧
       (getDeploymentsRoute store applicationId principal).1.status = 404 ∧
       (getAnalyticsRoute store applicationId principal daysParam now).1.status = 404 ∧
       (getApplicationRoute store applicationId principal).1.status = 404) ∧
    (∀ app, getApplication store applicationId = some app → app.userId ≠ principal →
       (deployRoute store applicationId principal newDeploymentId t0).1.status = 403 ∧
       (deleteApplicationRoute store applicationId principal).1.status = 403 ∧
       (getDeploymentsRoute store applicationId principal).1.status = 403 ∧
       (getAnalyticsRoute store applicationId principal daysParam now).1.status = 403 ∧
       (getApplicationRoute store applicationId principal).1.status = 403) := by
  constructor
  · intro h
    simp [deployRoute, deleteApplicationRoute, getDeploymentsRoute, getAnalyticsRoute,
      getApplicationRoute, h]
  · intro app h hne
    simp [deployRoute, deleteApplicationRoute, getDeploymentsRoute, getAnalyticsRoute,
      getApplicationRoute, h, hne]

/-- Store with no rows at all. -/
def emptyStore : Store := { users := [], applications := [], deployments := [], analytics := [] }

/-- Store holding exactly the sample application (owned by "alice"). -/
def ownedStore : Store :=
  { users := [], applications := [sampleApp], deployments := [], analytics := [] }

theorem ownership_guard_order_witness :
    ((deployRoute emptyStore 1 "bob" 7 0).1.status = 404 ∧
     (deleteApplicationRoute emptyStore 1 "bob").1.status = 404 ∧
     (getDeploymentsRoute emptyStore 1 "bob").1.status = 404 ∧
     (getAnalyticsRoute emptyStore 1 "bob" none 0).1.status = 404 ∧
     (getApplicationRoute emptyStore 1 "bob").1.status = 404) ∧
    ((deployRoute ownedStore 1 "bob" 7 0).1.status = 403 ∧
     (deleteApplicationRoute ownedStore 1 "bob").1.status = 403 ∧
     (getDeploymentsRoute ownedStore 1 "bob").1.status = 403 ∧
     (getAnalyticsRoute ownedStore 1 "bob" none 0).1.status = 403 ∧
     (getApplicationRoute ownedStore 1 "bob").1.status = 403) :=
  ⟨(ownership_guard_order emptyStore 1 "bob" 7 0 none 0).1 rfl,
   (ownership_guard_order ownedStore 1 "bob" 7 0 none 0).2 sampleApp rfl (by decide)⟩

/-- C5: application creation is refused for quota exactly when the creator
is not premium and already owns at least one application; the refusal is a
403 with the quota message; a premium creator is never quota-refused. -/
theorem tier_quota_enforced (store : Store) (userId : String) (form : ApplicationForm)
    (newId now : Nat) :
    ((postApplicationsRoute store userId form newId now).1 = CreateResult.quotaRefused ↔
       premiumOf (getUser store userId) = false ∧
         1 ≤ (getUserApplications store userId).length) ∧
    (createResultResponse CreateResult.quotaRefused).status = 403 ∧
    (premiumOf (getUser store userId) = true →
       (postApplicationsRoute store userId form newId now).1 ≠ CreateResult.quotaRefused) := by
  have hiff : (postApplicationsRoute store userId form newId now).1 = CreateResult.quotaRefused ↔
      premiumOf (getUser store userId) = false ∧
        1 ≤ (getUserApplications store userId).length := by
    simp only [postApplicationsRoute]
    split
    · next hq => simpa using hq
    · next hq =>
        split
        · next => simpa using hq
        · next => simpa using hq
  refine ⟨hiff, rfl, fun hp hr => ?_⟩
  have h2 := (hiff.mp hr).1
  rw [hp] at h2
  exact Bool.noConfusion h2

/-- Concrete premium user owning two applications already. -/
def premiumUser : User := { id := "carol", email := some "carol@example.com", isPremium := true }

/-- Second application owned by carol. -/
def carolApp1 : Application :=
  { id := 2, userId := "carol", name := "One", subdomain := "carol-one", sourceType := "github",
    buildCommand := none, outputDir := "dist", status := "live", deploymentUrl := none,
    lastDeployedAt := none, createdAt := 1 }

/-- Third application owned by carol. -/
def carolApp2 : Application :=
  { id := 3, userId := "carol", name := "Two", subdomain := "carol-two", sourceType := "github",
    buildCommand := none, outputDir := "dist", status := "live", deploymentUrl := none,
    lastDeployedAt := none, createdAt := 2 }

/-- Store where premium carol owns two applications. -/
def premiumStore : Store :=
  { users := [premiumUser], applications := [carolApp1, carolApp2], deployments := [],
    analytics := [] }

/-- Fresh creation form with an unused subdomain. -/
def freshForm : ApplicationForm :=
  { name := "Three", subdomain := "carol-three", sourceType := "github", buildCommand := none,
    outputDir := "dist" }

theorem tier_quota_enforced_witness :
    premiumOf (getUser premiumStore "carol") = true ∧
    (postApplicationsRoute premiumStore "carol" freshForm 9 3).1 ≠ CreateResult.quotaRefused :=
  ⟨rfl, (tier_quota_enforced premiumStore "carol" freshForm 9 3).2.2 rfl⟩

/-- C6 (amended): the availability pre-check answers true exactly when no
existing application row carries the subdomain; when some existing
application already holds the requested subdomain, creation inserts nothing
(the store is unchanged) and the attempt is refused — with the
subdomain-conflict error whenever the creator passes the earlier quota
check (premium, or owning no application yet), and with the quota error
otherwise, which runs before the pre-check and shadows the conflict. -/
theorem subdomain_conflict_precheck (store : Store) (userId : String) (form : ApplicationForm)
    (newId now : Nat) (h : ∃ a ∈ store.applications, a.subdomain = form.subdomain) :
    checkSubdomainAvailable store form.subdomain = false ∧
    (postApplicationsRoute store userId form newId now).2 = store ∧
    ((postApplicationsRoute store userId form newId now).1 = CreateResult.quotaRefused ∨
     (postApplicationsRoute store userId form newId now).1 = CreateResult.subdomainTaken) ∧
    (¬(premiumOf (getUser store userId) = false ∧
         1 ≤ (getUserApplications store userId).length) →
       (postApplicationsRoute store userId form newId now).1 = CreateResult.subdomainTaken) ∧
    (∀ s, checkSubdomainAvailable store s = true ↔
       ∀ a ∈ store.applications, a.subdomain ≠ s) := by
  have hav : checkSubdomainAvailable store form.subdomain = false := by
    obtain ⟨a, ha, hs⟩ := h
    cases hb : store.applications.find? (fun a => a.subdomain == form.subdomain) with
    | some v => simp [checkSubdomainAvailable, hb]
    | none =>
        exfalso
        have := List.find?_eq_none.mp hb a ha
        simp [hs] at this
  refine ⟨hav, ?_, ?_, ?_, ?_⟩
  · simp only [postApplicationsRoute]
    split
    · rfl
    · simp [hav]
  · simp only [postApplicationsRoute]
    split
    · exact Or.inl rfl
    · simp [hav]
  · intro hq
    simp only [postApplicationsRoute]
    split
    · next hqq => exact absurd hqq hq
    · simp [hav]
  · intro s
    simp [checkSubdomainAvailable, Option.isNone_iff_eq_none, List.find?_eq_none]

/-- Creation form reusing the sample application's subdomain. -/
def takenForm : ApplicationForm :=
  { name := "Other", subdomain := "demo-1", sourceType := "zip", buildCommand := none,
    outputDir := "dist" }

/-- Store where premium carol coexists with alice's demo-1 application. -/
def conflictStore : Store :=
  { users := [premiumUser], applications := [sampleApp, carolApp1, carolApp2],
    deployments := [], analytics := [] }

theorem subdomain_conflict_precheck_witness :
    checkSubdomainAvailable ownedStore takenForm.subdomain = false ∧
    (postApplicationsRoute ownedStore "bob" takenForm 9 3).2 = ownedStore ∧
    (postApplicationsRoute conflictStore "carol" takenForm 9 3).1
      = CreateResult.subdomainTaken :=
  have h : ∃ a ∈ ownedStore.applications, a.subdomain = takenForm.subdomain :=
    ⟨sampleApp, by decide, rfl⟩
  have hc : ∃ a ∈ conflictStore.applications, a.subdomain = takenForm.subdomain :=
    ⟨sampleApp, by decide, rfl⟩
  ⟨(subdomain_conflict_precheck ownedStore "bob" takenForm 9 3 h).1,
   (subdomain_conflict_precheck ownedStore "bob" takenForm 9 3 h).2.1,
   (subdomain_conflict_precheck conflictStore "carol" takenForm 9 3 hc).2.2.2.1 (by decide)⟩

/-- Non-premium user already owning one application. -/
def daveUser : User := { id := "dave", email := none, isPremium := false }

/-- The single application dave already owns. -/
def daveApp : Application :=
  { id := 4, userId := "dave", name := "Dave", subdomain := "dave-app", sourceType := "zip",
    buildCommand := none, outputDir := "dist", status := "live", deploymentUrl := none,
    lastDeployedAt := none, createdAt := 0 }

/-- Store where alice holds demo-1 and non-premium dave holds one application. -/
def quotaStore : Store :=
  { users := [daveUser], applications := [sampleApp, daveApp], deployments := [],
    analytics := [] }

/-- C6 counterexample to the claim as stated: subdomain demo-1 is already
taken, yet dave's creation attempt with it is refused with the quota error,
not a subdomain-conflict error — the quota check at the top of the route
runs before the availability pre-check and shadows the conflict. -/
theorem quota_error_shadows_subdomain_conflict :
    checkSubdomainAvailable quotaStore takenForm.subdomain = false ∧
    (postApplicationsRoute quotaStore "dave" takenForm 9 3).1 = CreateResult.quotaRefused ∧
    (postApplicationsRoute quotaStore "dave" takenForm 9 3).1 ≠ CreateResult.subdomainTaken :=
  ⟨rfl, rfl, by decide⟩

/-- Analytics event far older than any 30-day window. -/
def oldEvent : AnalyticsEvent :=
  { applicationId := 1, visitorIp := "9.9.9.9", userAgent := "curl", country := "Unknown",
    city := "Unknown", referer := "", path := "/", visitedAt := 0 }

/-- Store where the sample application has one ancient analytics event. -/
def analyticsStore : Store :=
  { users := [], applications := [sampleApp], deployments := [], analytics := [oldEvent] }

/-- C7, demonstrated on the code: asking for the last 30 days of analytics
at a clock 60 days (in milliseconds) after the event still returns the
event — the route applies no date filter, so rows older than the requested
window are not excluded. -/
theorem stale_analytics_returned :
    (getAnalyticsRoute analyticsStore 1 "alice" (some 30) 5184000000).1.status = 200 ∧
    (getAnalyticsRoute analyticsStore 1 "alice" (some 30) 5184000000).2 = some [oldEvent] ∧
    oldEvent.visitedAt + 30 * 86400000 < 5184000000 :=
  ⟨rfl, rfl, by decide⟩

/-- C8, demonstrated on the code: the sample application owns subdomain
demo-1, yet POST /api/track/demo-1 answers 404 and records nothing, because
the route searches for the subdomain only among applications whose owner id
is the empty string. -/
theorem track_misses_owned_subdomain :
    (ownedStore.applications.find? (fun a => a.subdomain == "demo-1")).isSome = true ∧
    (trackRoute ownedStore "demo-1" "1.2.3.4" (some "curl") none none 99).1.status = 404 ∧
    (trackRoute ownedStore "demo-1" "1.2.3.4" (some "curl") none none 99).2 = ownedStore :=
  ⟨rfl, rfl, rfl⟩

theorem jsStringOr_ne_empty (c : Option String) (d : String) (hd : d ≠ "") :
    jsStringOr c d ≠ "" := by
  cases c with
  | none => exact hd
  | some s =>
    simp only [jsStringOr]
    split
    · exact hd
    · next h => exact h

theorem authChatResponse_ne_empty (up : ChatUpstream) : authChatResponse up ≠ "" := by
  cases up with
  | ok c => exact jsStringOr_ne_empty c _ (by decide)
  | badBody => decide
  | httpFail code => exact (show authChatFallback ≠ "" by decide)
  | netFail => decide

theorem publicChatResponse_ne_empty (up : ChatUpstream) : publicChatResponse up ≠ "" := by
  cases up with
  | ok c => exact jsStringOr_ne_empty c _ (by decide)
  | badBody => decide
  | httpFail code =>
      exact (show ("I\x27m having trouble connecting right now. Please try again or contact our support team for assistance." : String) ≠ "" by decide)
  | netFail => decide

/-- C9: with a valid message both chat endpoints answer an HTTP success
status carrying a non-empty response text, whatever the upstream outcome
(including failures and empty choice lists); the authenticated endpoint
persists the conversation row with exactly that resolved text, and the
persistence event happens after the upstream call resolves. -/
theorem chat_degrades_gracefully (userId message pm : String) (up up2 : ChatUpstream)
    (hpm : pm ≠ "") :
    (∃ r, r ≠ "" ∧ groqChatRoute userId message up =
       [ChatEvent.upstreamCall, ChatEvent.persistConversation userId message r,
        ChatEvent.respond 201 r]) ∧
    (∃ r, r ≠ "" ∧ publicChatRoute (some pm) up2 =
       [ChatEvent.upstreamCall, ChatEvent.respond 200 r]) := by
  refine ⟨⟨authChatResponse up, authChatResponse_ne_empty up, rfl⟩,
    ⟨publicChatResponse up2, publicChatResponse_ne_empty up2, ?_⟩⟩
  simp only [publicChatRoute]
  rw [if_neg hpm]

theorem chat_degrades_gracefully_witness :
    ("hello" ≠ "") ∧
    (∃ r, r ≠ "" ∧ groqChatRoute "u1" "hi" ChatUpstream.netFail =
       [ChatEvent.upstreamCall, ChatEvent.persistConversation "u1" "hi" r,
        ChatEvent.respond 201 r]) :=
  ⟨by decide,
   (chat_degrades_gracefully "u1" "hi" "hello" ChatUpstream.netFail ChatUpstream.netFail
     (by decide)).1⟩
